import Mathlib

/-!
Verification of the GMAT practice-question Flask service (src/app.py).

Shallow embedding conventions:

* JSON values carried in request/response bodies are modelled by `Json`
  (numbers as `Int`; the claims never exercise floating-point payloads).
* `data = request.json` is modelled by `ReqJson`: `.val j` when the body
  parses to the JSON value `j` (`.val Json.null` for a body consisting of
  the JSON literal `null`, which Flask hands to the handler as Python
  `None`), and `.failed code excText excTraceback` when `request.json`
  raises — Flask raises a `BadRequest` (400) `HTTPException` on
  undecodable JSON and an `UnsupportedMediaType` (415) on a wrong
  Content-Type; the carried status code, `str(e)` text and
  `traceback.format_exc()` text are werkzeug artefacts supplied by the
  request environment.  (The comment at src/app.py lines 116-117 claiming
  `request.json` "returns None" on a parse failure is wrong about Flask;
  the `data is None` branches are reachable only by a JSON `null` body.)
* Python string operations are modelled on ASCII text: `str.lower` as
  ASCII lowercasing, `str.strip` as removal of the six ASCII whitespace
  characters Python strips.
* The LLM completion service is out of scope (an opaque collaborator per
  the spec); each handler environment carries an oracle giving the outcome
  of a chain invocation for any prompt.  For the two structured routes the
  oracle yields `Except String Json`: LangChain's
  `JsonOutputParser(pydantic_object=...)` parses the completion as JSON but
  performs no validation against the pydantic model (the `pydantic_object`
  argument only influences `get_format_instructions`), so a successful
  chain invocation yields an arbitrary JSON value, and a failure (upstream
  error or unparsable completion) raises, carried here as `.error msg`.
* An exception that escapes a handler is modelled by `HOutcome.uncaught`;
  the host dispatcher renders an uncaught werkzeug `HTTPException` with
  that exception's own status code and any other uncaught exception as
  HTTP 500 (`HOutcome.status`).
-/

/-- JSON values as parsed by Flask / produced by the model chain.
Objects keep their key/value pairs in order; numbers are integers. -/
inductive Json where
  | null : Json
  | bool : Bool → Json
  | num : Int → Json
  | str : String → Json
  | arr : List Json → Json
  | obj : List (String × Json) → Json

/-- Lookup of a key in a parsed JSON object.  Python's `json.loads` keeps
the last occurrence of a duplicated key, so the later binding wins. -/
def jlookup (kvs : List (String × Json)) (k : String) : Option Json :=
  match kvs with
  | [] => none
  | (k', v) :: rest =>
    match jlookup rest k with
    | some r => some r
    | none => if k' = k then some v else none

/-- The six ASCII characters stripped by Python's `str.strip()`. -/
def isPySpace (c : Char) : Bool :=
  c = ' ' || c = '\t' || c = '\n' || c = '\r' || c = '\x0b' || c = '\x0c'

/-- Python `str.strip()`: remove leading and trailing whitespace. -/
def pyStrip (s : String) : String :=
  String.mk (((s.toList.dropWhile isPySpace).reverse.dropWhile isPySpace).reverse)

/-- Python `str.lower()` on ASCII text. -/
def pyLower (s : String) : String :=
  String.mk (s.toList.map Char.toLower)

/-- Python `str(b)` for a boolean. -/
def pyBoolStr (b : Bool) : String :=
  cond b "True" "False"

mutual

/-- Python `repr` of a parsed-JSON value (string escaping inside
containers is approximated by plain single quotes; no claim evaluates a
container payload). -/
def pyRepr : Json → String
  | .null => "None"
  | .bool b => pyBoolStr b
  | .num n => toString n
  | .str s => "\x27" ++ s ++ "\x27"
  | .arr xs => "[" ++ pyReprArr xs ++ "]"
  | .obj kvs => "\x7b" ++ pyReprObj kvs ++ "\x7d"

/-- Comma-separated `repr`s of the elements of a Python list. -/
def pyReprArr : List Json → String
  | [] => ""
  | [x] => pyRepr x
  | x :: y :: rest => pyRepr x ++ ", " ++ pyReprArr (y :: rest)

/-- Comma-separated `repr`s of the entries of a Python dict. -/
def pyReprObj : List (String × Json) → String
  | [] => ""
  | [(k, v)] => "\x27" ++ k ++ "\x27: " ++ pyRepr v
  | (k, v) :: e :: rest =>
    "\x27" ++ k ++ "\x27: " ++ pyRepr v ++ ", " ++ pyReprObj (e :: rest)

end

/-- Python `str()` of a parsed-JSON value, as applied by f-string
interpolation: strings are inserted verbatim, `None` prints as `None`,
booleans as `True`/`False`, and containers via `repr`. -/
def pyStr : Json → String
  | .str s => s
  | j => pyRepr j

/-- Python truthiness of a parsed-JSON value: `None`, `False`, `0`, `""`,
`[]` and `{}` are falsy. -/
def pyTruthy : Json → Bool
  | .null => false
  | .bool b => b
  | .num n => n != 0
  | .str s => s != ""
  | .arr xs => !xs.isEmpty
  | .obj kvs => !kvs.isEmpty

/-- Truthiness of the result of `dict.get`: an absent key gives Python
`None`, which is falsy. -/
def pyTruthyOpt : Option Json → Bool
  | none => false
  | some v => pyTruthy v

/-- Python type name of a parsed-JSON value, as it appears in an
`AttributeError` message. -/
def pyTypeName : Json → String
  | .null => "NoneType"
  | .bool _ => "bool"
  | .num _ => "int"
  | .str _ => "str"
  | .arr _ => "list"
  | .obj _ => "dict"

/-- Message of the `AttributeError` raised by `value.get(...)` on a
non-dict value. -/
def attrNoGetMsg (j : Json) : String :=
  "\x27" ++ pyTypeName j ++ "\x27 object has no attribute \x27get\x27"

/-- Whether the first character list is an initial segment of the second. -/
def chPre : List Char → List Char → Bool
  | [], _ => true
  | _ :: _, [] => false
  | a :: as, b :: bs => a == b && chPre as bs

/-- Whether the first character list occurs contiguously in the second. -/
def chSub (pat : List Char) (s : List Char) : Bool :=
  match s with
  | [] => pat.isEmpty
  | _ :: rest => chPre pat s || chSub pat rest

/-- Whether `pat` occurs as a substring of `s`. -/
def occurs (pat s : String) : Bool :=
  chSub pat.toList s.toList

example : pyStrip " b " = "b" := by decide
example : pyLower "C" = "c" := by decide
example : pyStr (Json.arr [Json.num 1, Json.str "a"]) = "[1, \x27a\x27]" := by decide
example : occurs "bc" "abcd" = true := by decide
example : occurs "xy" "abcd" = false := by decide

/-- Process-wide model-client configuration, established once at startup
(src/app.py lines 36-40): model identifier, API key, endpoint URL. -/
structure LlmConfig where
  model : String
  apiKey : String
  baseUrl : String

/-- One chat message handed to the model client. -/
structure Message where
  role : String
  content : String

/-- The list of messages a chain invocation sends to the model client. -/
abbrev ChatPrompt := List Message

/-- Python exceptions raised in the modelled branches: `AttributeError`
(a plain exception, rendered by the dispatcher as HTTP 500 when it
escapes a handler) and a werkzeug `HTTPException` carrying its own HTTP
status code and `str(e)` text (rendered with that code when it escapes). -/
inductive PyError where
  | attributeError : String → PyError
  | httpException : Nat → String → PyError

/-- What a handler produces: either an HTTP response built by the handler
itself, or an exception that escaped it. -/
inductive HOutcome where
  | resp : Nat → Json → HOutcome
  | uncaught : PyError → HOutcome

/-- HTTP status the client observes: the handler's own status; for an
uncaught exception, the dispatcher renders a werkzeug `HTTPException`
with the exception's own code and any other exception as HTTP 500. -/
def HOutcome.status : HOutcome → Nat
  | .resp s _ => s
  | .uncaught (.attributeError _) => 500
  | .uncaught (.httpException c _) => c

/-- Result of one request: the outcome plus the model-client invocations
made while serving it (configuration used, messages sent), in order. -/
structure HResult where
  outcome : HOutcome
  calls : List (LlmConfig × ChatPrompt)

/-- Environment the process reads at startup (src/app.py lines 28-49). -/
structure StartupEnv where
  apiKey : Option String
  modelNameEnv : Option String

/-- Startup either terminates the process with an exit code before any
request is served, or yields the model-client configuration. -/
inductive StartupResult where
  | exited : Nat → StartupResult
  | serving : LlmConfig → StartupResult

/-- Default model identifier (src/app.py line 31). -/
def defaultModelName : String := "deepseek/deepseek-r1-0528-qwen3-8b:free"

/-- OpenRouter endpoint (src/app.py line 39). -/
def openrouterBaseUrl : String := "https://openrouter.ai/api/v1"

/-- Python truthiness of an `os.getenv` result: an unset variable
(`None`) and an empty-string value are both falsy. -/
def pyEnvTruthy : Option String → Bool
  | none => false
  | some s => s != ""

/-- Startup initialisation (src/app.py lines 28-49): `os.getenv` yields
the key (`none` when the variable is unset).  The guard
`if openrouter_api_key:` is Python truthiness, so an unset variable and
an empty-string value alike take the `else` branch, raising
`ValueError`, which the surrounding `except` turns into `exit(1)`; a
non-empty key builds the process-wide client configuration. -/
def startup (env : StartupEnv) : StartupResult :=
  let name := env.modelNameEnv.getD defaultModelName
  match env.apiKey with
  | some k =>
    if k = "" then .exited 1
    else .serving ⟨name, k, openrouterBaseUrl⟩
  | none => .exited 1

/-- Outcome of `data = request.json` for one request: `.val j` when the
body parses to the JSON value `j`, and `.failed code excText excTb` when
`request.json` raises a werkzeug `HTTPException` (`BadRequest`, 400, on
undecodable JSON; `UnsupportedMediaType`, 415, on a wrong Content-Type
in current Flask), carrying that exception's status code, its `str(e)`
text and the `traceback.format_exc()` text, as supplied by the request
environment. -/
inductive ReqJson where
  | failed : Nat → String → String → ReqJson
  | val : Json → ReqJson

/-- Request environment of `/generate_question`: raw body, the
`request.json` outcome, the style-guide file contents (`none` models
`FileNotFoundError` on `open`, read afresh on each request), the
process-wide client configuration, and the chain oracle. -/
structure GenEnv where
  rawBody : String
  body : ReqJson
  styleGuide : Option String
  cfg : LlmConfig
  llm : ChatPrompt → Except String Json

/-- Error message of the 500 returned when the style-guide file is
missing (src/app.py line 79). -/
def styleGuideMissingMsg : String :=
  "gmat_style_guide.txt not found. Make sure it\x27s in the same folder."

/-- Text of the generation system message before the embedded style guide
(src/app.py line 83). -/
def genSysPre : String :=
  "You are an expert GMAT quantitative question designer.\n         "

/-- Text of the generation system message after the embedded style guide
(src/app.py lines 85-90). -/
def genSysPost : String :=
  "\n         Generate a GMAT-style Multiple Choice question with 5 options (A, B, C, D, E).\n         Focus on concise, clear language typical of GMAT.\n         Ensure the question has one clear correct answer.\n         For \x27Hard\x27 difficulty, include a subtle trap or require multiple steps.\n         Your output MUST be a JSON object conforming to the QuestionOutput schema.\n         "

/-- The generation system message: the style guide is interpolated into
the f-string between the fixed pre/post text (src/app.py lines 83-90). -/
def genSystemMsg (g : String) : String :=
  genSysPre ++ g ++ genSysPost

/-- The generation human message (src/app.py line 91); `difficulty` and
`topic` are interpolated through Python `str()`. -/
def genHumanMsg (difficulty topic : Json) : String :=
  "Generate a " ++ pyStr difficulty ++ " difficulty GMAT Quant question on the topic of " ++ pyStr topic ++ ". Provide 5 options (A, B, C, D, E)."

/-- The full prompt `/generate_question` sends to the model client. -/
def genPrompt (g : String) (topic difficulty : Json) : ChatPrompt :=
  [⟨"system", genSystemMsg g⟩, ⟨"human", genHumanMsg difficulty topic⟩]

/-- The `/generate_question` handler (src/app.py lines 66-103).
`data = request.json` sits outside any `try`, so an unparsable body lets
the raised `HTTPException` escape (the dispatcher renders its own
400/415 page, with no raw-body echo); a parsed non-dict body — including
the `null` body, which Flask hands over as `None` — makes `data.get`
raise `AttributeError`, also uncaught (dispatcher: 500); topic and
difficulty default to `"Algebra"`/`"Medium"`; the style guide is opened
on every request; the chain result is returned as the 200 body with no
schema validation, and any chain exception becomes a 500 with the
exception text. -/
def generate_question (env : GenEnv) : HResult :=
  match env.body with
  | .failed code e _ => ⟨.uncaught (.httpException code e), []⟩
  | .val (Json.obj kvs) =>
    let topic := (jlookup kvs "topic").getD (Json.str "Algebra")
    let difficulty := (jlookup kvs "difficulty").getD (Json.str "Medium")
    match env.styleGuide with
    | none => ⟨.resp 500 (Json.obj [("error", Json.str styleGuideMissingMsg)]), []⟩
    | some g =>
      let prompt := genPrompt g topic difficulty
      match env.llm prompt with
      | .ok j => ⟨.resp 200 j, [(env.cfg, prompt)]⟩
      | .error e => ⟨.resp 500 (Json.obj [("error", Json.str e)]), [(env.cfg, prompt)]⟩
  | .val d => ⟨.uncaught (.attributeError (attrNoGetMsg d)), []⟩

/-- Request environment of `/evaluate_answer`. -/
structure EvalEnv where
  rawBody : String
  body : ReqJson
  cfg : LlmConfig
  llm : ChatPrompt → Except String Json

/-- Error message of the 400 returned by `/evaluate_answer` when the body
cannot be parsed as JSON (src/app.py line 122). -/
def evalParseErrMsg : String :=
  "Could not parse JSON body. Ensure Content-Type is \x27application/json\x27 and body is valid JSON."

/-- Error message of the 400 returned when `question_data` or
`student_answer` is missing or falsy (src/app.py line 137). -/
def missingFieldsMsg : String :=
  "Missing \x27question_data\x27 or \x27student_answer\x27 in request body."

/-- Body of the missing-fields 400 response. -/
def missingFieldsBody : Json :=
  Json.obj [("error", Json.str missingFieldsMsg)]

/-- Error message of the 400 returned when `question_data` is not a dict
with the three required keys (src/app.py line 142). -/
def invalidFormatMsg : String :=
  "Invalid \x27question_data\x27 format. Required keys: \x27answer\x27, \x27question\x27, \x27explanation\x27."

/-- Body of the invalid-format 400 response. -/
def invalidFormatBody : Json :=
  Json.obj [("error", Json.str invalidFormatMsg)]

/-- The feedback system message (src/app.py lines 151-157), a fixed
string. -/
def feedbackSystemMsg : String :=
  "You are a supportive and insightful GMAT tutor.\n         Provide personalized feedback to the student based on their answer.\n         If correct, offer positive reinforcement and explain why it\x27s right.\n         If incorrect, first clearly state the correct answer. Then, explain why the student\x27s answer is wrong, why the correct answer is right (referencing the detailed explanation provided). Suggest a specific remediation topic (e.g., \x27Algebra: Word Problems\x27, \x27Geometry: Triangles\x27) if incorrect.\n         Keep feedback concise and encouraging.\n         Your output MUST be a JSON object conforming to the FeedbackOutput schema.\n         "

/-- The feedback human message (src/app.py lines 158-163): f-string
interpolation of the stored question, the raw student answer, the
normalised correct answer, the locally computed correctness boolean, and
the stored explanation. -/
def feedbackHumanMsg (questionText studentAnswer : Json) (correctAnswer : String) (isCorrect : Bool) (explanation : Json) : String :=
  "Student\x27s question: " ++ pyStr questionText ++ "\n         Student\x27s answer: " ++ pyStr studentAnswer ++ "\n         Correct answer: " ++ correctAnswer ++ "\n         Is correct: " ++ pyBoolStr isCorrect ++ "\n         Detailed explanation: " ++ pyStr explanation ++ "\n         "

/-- Normalisation applied to both sides of the correctness comparison
(src/app.py lines 144, 148): Python `str(x).strip().lower()`. -/
def normAnswer (x : Json) : String :=
  pyLower (pyStrip (pyStr x))

/-- The full prompt `/evaluate_answer` sends to the model client. -/
def feedbackPrompt (questionText studentAnswer : Json) (correctAnswer : String) (isCorrect : Bool) (explanation : Json) : ChatPrompt :=
  [⟨"system", feedbackSystemMsg⟩, ⟨"human", feedbackHumanMsg questionText studentAnswer correctAnswer isCorrect explanation⟩]

/-- The `/evaluate_answer` handler (src/app.py lines 107-181).  An
unparsable body makes `request.json` raise inside the parsing `try`,
whose `except Exception` clause (src/app.py lines 125-129) returns a 400
reporting `Failed to read request data: ...` and the traceback — without
the raw-body echo; the echoing `data is None` 400 (src/app.py lines
119-124) is reached only by a body of the JSON literal `null`; `data.get`
on a parsed non-dict body raises `AttributeError` outside that block,
hence uncaught (dispatcher: 500); missing-or-falsy
`question_data`/`student_answer` gives the missing-fields 400;
`question_data` not a dict with the three required keys gives the
invalid-format 400; otherwise correctness is computed locally by
normalised string equality, the feedback prompt is sent, and the parsed
chain output is returned verbatim as the 200 body (500 with the exception
text on chain failure). -/
def evaluate_answer (env : EvalEnv) : HResult :=
  match env.body with
  | .failed _ e tb =>
    ⟨.resp 400 (Json.obj [("error", Json.str ("Failed to read request data: " ++ e)), ("traceback", Json.str tb)]), []⟩
  | .val Json.null =>
    ⟨.resp 400 (Json.obj [("error", Json.str evalParseErrMsg), ("received_raw_data", Json.str env.rawBody)]), []⟩
  | .val (Json.obj kvs) =>
    let questionData := jlookup kvs "question_data"
    let studentAnswer := jlookup kvs "student_answer"
    if !pyTruthyOpt questionData || !pyTruthyOpt studentAnswer then
      ⟨.resp 400 missingFieldsBody, []⟩
    else
      match questionData.getD Json.null with
      | Json.obj qkvs =>
        if (jlookup qkvs "answer").isSome && (jlookup qkvs "question").isSome && (jlookup qkvs "explanation").isSome then
          let sav := studentAnswer.getD Json.null
          let correctAnswer := normAnswer ((jlookup qkvs "answer").getD Json.null)
          let questionText := (jlookup qkvs "question").getD Json.null
          let explanation := (jlookup qkvs "explanation").getD Json.null
          let isCorrect := normAnswer sav == correctAnswer
          let prompt := feedbackPrompt questionText sav correctAnswer isCorrect explanation
          match env.llm prompt with
          | .ok j => ⟨.resp 200 j, [(env.cfg, prompt)]⟩
          | .error e => ⟨.resp 500 (Json.obj [("error", Json.str e)]), [(env.cfg, prompt)]⟩
        else
          ⟨.resp 400 invalidFormatBody, []⟩
      | _ => ⟨.resp 400 invalidFormatBody, []⟩
  | .val d => ⟨.uncaught (.attributeError (attrNoGetMsg d)), []⟩

/-- Request environment of `/test_llm`: its oracle returns the raw text
completion (`test_chain` has no output parser). -/
structure TestEnv where
  rawBody : String
  body : ReqJson
  cfg : LlmConfig
  llm : ChatPrompt → Except String String

/-- Error message of the 400 returned by `/test_llm` when the body cannot
be parsed as JSON (src/app.py line 198). -/
def testParseErrMsg : String :=
  "Could not parse JSON body for /test_llm. Ensure Content-Type is \x27application/json\x27 and body is valid JSON."

/-- Default prompt used by `/test_llm` when the body has no `prompt`
field (src/app.py line 208). -/
def defaultTestPrompt : String :=
  "Say \x27Hello, AI is working!\x27"

/-- The `/test_llm` handler (src/app.py lines 184-222).  An unparsable
body makes `request.json` raise inside the first `try`, whose
`except Exception` clause (src/app.py lines 201-204) returns a 400
reporting the failure and the traceback — without the raw-body echo; the
echoing `data is None` 400 is reached only by a `null` body.  Unlike
`/evaluate_answer`, the `data.get` call sits inside the route's second
`try`, so an `AttributeError` on a parsed non-dict body is caught and
turned into a 500 status envelope; the prompt defaults to
`defaultTestPrompt` and is sent as the sole human message through
`str()` interpolation. -/
def test_llm (env : TestEnv) : HResult :=
  match env.body with
  | .failed _ e tb =>
    ⟨.resp 400 (Json.obj [("status", Json.str "error"), ("message", Json.str ("Failed to read request data for /test_llm: " ++ e)), ("traceback", Json.str tb)]), []⟩
  | .val Json.null =>
    ⟨.resp 400 (Json.obj [("status", Json.str "error"), ("message", Json.str testParseErrMsg), ("received_raw_data", Json.str env.rawBody)]), []⟩
  | .val (Json.obj kvs) =>
    let userPrompt :=
      match jlookup kvs "prompt" with
      | some v => pyStr v
      | none => defaultTestPrompt
    let prompt : ChatPrompt := [⟨"human", userPrompt⟩]
    match env.llm prompt with
    | .ok text => ⟨.resp 200 (Json.obj [("status", Json.str "success"), ("response", Json.str text)]), [(env.cfg, prompt)]⟩
    | .error e => ⟨.resp 500 (Json.obj [("status", Json.str "error"), ("message", Json.str e)]), [(env.cfg, prompt)]⟩
  | .val d =>
    ⟨.resp 500 (Json.obj [("status", Json.str "error"), ("message", Json.str (attrNoGetMsg d))]), []⟩

/-- Contents of all human messages a request sent to the model client. -/
def sentHumanTexts (r : HResult) : List String :=
  (r.calls.map (fun c => ((c.2.filter (fun m => m.role == "human")).map (fun m => m.content)))).flatten

/-- Content of the first human message sent (empty if none was sent). -/
def firstHumanText (r : HResult) : String :=
  (sentHumanTexts r).headD ""

/-- A concrete client configuration for closed test runs. -/
def cfg0 : LlmConfig := ⟨"deepseek/deepseek-r1-0528-qwen3-8b:free", "sk-test", "https://openrouter.ai/api/v1"⟩

/-- A well-formed feedback record a stubbed model might return. -/
def fbOk : Json :=
  Json.obj [("is_correct", Json.bool true), ("feedback", Json.str "good"), ("remediation_topic", Json.str "none")]

/-- A parsed `/evaluate_answer` body whose `question_data` has answer `B`
and whose `student_answer` is the given string. -/
def qdBody (sa : String) : Json :=
  Json.obj
    [("question_data",
      Json.obj [("answer", Json.str "B"), ("question", Json.str "What is 1+1?"), ("explanation", Json.str "Because.")]),
     ("student_answer", Json.str sa)]

example :
    (evaluate_answer ⟨"r", .val (qdBody " b "), cfg0, fun _ => .ok fbOk⟩).outcome = .resp 200 fbOk := rfl
example :
    occurs "Is correct: True" (firstHumanText (evaluate_answer ⟨"r", .val (qdBody " b "), cfg0, fun _ => .ok fbOk⟩)) = true := by decide
example :
    occurs "Is correct: False" (firstHumanText (evaluate_answer ⟨"r", .val (qdBody "C"), cfg0, fun _ => .ok fbOk⟩)) = true := by decide

/-- On a fully valid evaluation request, `/evaluate_answer` sends exactly
one feedback prompt carrying the locally computed correctness boolean and
returns the chain output verbatim. -/
lemma eval_valid_run (env : EvalEnv) (kvs qkvs : List (String × Json)) (sav : Json)
    (hb : env.body = .val (Json.obj kvs))
    (hqd : jlookup kvs "question_data" = some (Json.obj qkvs))
    (hsa : jlookup kvs "student_answer" = some sav)
    (htq : pyTruthy (Json.obj qkvs) = true)
    (hts : pyTruthy sav = true)
    (ha : (jlookup qkvs "answer").isSome = true)
    (hq : (jlookup qkvs "question").isSome = true)
    (he : (jlookup qkvs "explanation").isSome = true) :
    evaluate_answer env =
      (let ca := normAnswer ((jlookup qkvs "answer").getD Json.null)
       let prompt := feedbackPrompt ((jlookup qkvs "question").getD Json.null) sav
         ca (normAnswer sav == ca) ((jlookup qkvs "explanation").getD Json.null)
       match env.llm prompt with
       | .ok j => ⟨.resp 200 j, [(env.cfg, prompt)]⟩
       | .error e => ⟨.resp 500 (Json.obj [("error", Json.str e)]), [(env.cfg, prompt)]⟩) := by
  unfold evaluate_answer
  rw [hb]
  simp only [hqd, hsa, pyTruthyOpt, htq, hts, ha, hq, he, Option.getD_some,
    Bool.not_true, Bool.or_self, Bool.false_or, if_false, Bool.and_self, ite_false]
  simp

/-- Entries of the concrete `question_data` used in closed runs. -/
def qdataB : List (String × Json) :=
  [("answer", Json.str "B"), ("question", Json.str "What is 1+1?"), ("explanation", Json.str "Because.")]

/-- Field lookup on a JSON value: `none` unless it is an object holding
the key. -/
def jfield (j : Json) (k : String) : Option Json :=
  match j with
  | .obj kvs => jlookup kvs k
  | _ => none

/-- Happy-path calls characterisation: exactly one feedback prompt is
sent, carrying the locally computed correctness boolean. -/
lemma eval_valid_calls (env : EvalEnv) (kvs qkvs : List (String × Json)) (sav : Json)
    (hb : env.body = .val (Json.obj kvs))
    (hqd : jlookup kvs "question_data" = some (Json.obj qkvs))
    (hsa : jlookup kvs "student_answer" = some sav)
    (htq : pyTruthy (Json.obj qkvs) = true)
    (hts : pyTruthy sav = true)
    (ha : (jlookup qkvs "answer").isSome = true)
    (hq : (jlookup qkvs "question").isSome = true)
    (he : (jlookup qkvs "explanation").isSome = true) :
    (evaluate_answer env).calls =
      [(env.cfg,
        feedbackPrompt ((jlookup qkvs "question").getD Json.null) sav
          (normAnswer ((jlookup qkvs "answer").getD Json.null))
          (normAnswer sav == normAnswer ((jlookup qkvs "answer").getD Json.null))
          ((jlookup qkvs "explanation").getD Json.null))] := by
  rw [eval_valid_run env kvs qkvs sav hb hqd hsa htq hts ha hq he]
  dsimp only
  split <;> rfl

/-- C2: for every EvaluateAnswer request that passes input validation, the
locally computed `is_correct` — the boolean the handler interpolates into
the feedback prompt — is string equality of `student_answer` and
`question_data.answer` after Python `str()`, surrounding-whitespace
stripping and lowercasing of both sides; concretely, answer `B` with
student answer `" b "` puts `Is correct: True` in the prompt, and answer
`B` with student answer `C` puts `Is correct: False`. -/
theorem c2_strip_lower_equality :
    (∀ (env : EvalEnv) (kvs qkvs : List (String × Json)) (sav : Json),
      env.body = .val (Json.obj kvs) →
      jlookup kvs "question_data" = some (Json.obj qkvs) →
      jlookup kvs "student_answer" = some sav →
      pyTruthy (Json.obj qkvs) = true →
      pyTruthy sav = true →
      (jlookup qkvs "answer").isSome = true →
      (jlookup qkvs "question").isSome = true →
      (jlookup qkvs "explanation").isSome = true →
      (evaluate_answer env).calls =
        [(env.cfg,
          feedbackPrompt ((jlookup qkvs "question").getD Json.null) sav
            (pyLower (pyStrip (pyStr ((jlookup qkvs "answer").getD Json.null))))
            (pyLower (pyStrip (pyStr sav)) == pyLower (pyStrip (pyStr ((jlookup qkvs "answer").getD Json.null))))
            ((jlookup qkvs "explanation").getD Json.null))]) ∧
    occurs "Is correct: True" (firstHumanText (evaluate_answer ⟨"r", .val (qdBody " b "), cfg0, fun _ => .ok fbOk⟩)) = true ∧
    occurs "Is correct: False" (firstHumanText (evaluate_answer ⟨"r", .val (qdBody "C"), cfg0, fun _ => .ok fbOk⟩)) = true := by
  refine ⟨?_, by decide, by decide⟩
  intro env kvs qkvs sav hb hqd hsa htq hts ha hq he
  exact eval_valid_calls env kvs qkvs sav hb hqd hsa htq hts ha hq he

/-- C2 witness: the general statement applied to the concrete `" b "`
versus `B` request. -/
theorem c2_witness :
    (evaluate_answer ⟨"r", .val (qdBody " b "), cfg0, fun _ => .ok fbOk⟩).calls =
      [(cfg0, feedbackPrompt (Json.str "What is 1+1?") (Json.str " b ") "b" true (Json.str "Because."))] :=
  c2_strip_lower_equality.1 ⟨"r", .val (qdBody " b "), cfg0, fun _ => .ok fbOk⟩
    [("question_data", Json.obj qdataB), ("student_answer", Json.str " b ")] qdataB
    (Json.str " b ") rfl rfl rfl rfl rfl rfl rfl rfl

/-- C10: `/evaluate_answer` checks its two fields by truthiness, so a
present-but-falsy `question_data` or `student_answer` (empty string,
empty object, and so on) is rejected with the same missing-fields 400 and
empty call list as an absent field — the two cases are indistinguishable
(`pyTruthyOpt` is false both for an absent key and for a falsy value). -/
theorem c10_falsy_fields_rejected (env : EvalEnv) (kvs : List (String × Json))
    (hb : env.body = .val (Json.obj kvs))
    (h : pyTruthyOpt (jlookup kvs "question_data") = false ∨
         pyTruthyOpt (jlookup kvs "student_answer") = false) :
    evaluate_answer env = ⟨.resp 400 missingFieldsBody, []⟩ := by
  unfold evaluate_answer
  rw [hb]
  rcases h with h | h <;> simp [h]

/-- C10 witness: the empty-string student answer and the empty-object
question data, both present, are rejected exactly like absent fields. -/
theorem c10_witness :
    evaluate_answer ⟨"r", .val (Json.obj [("question_data", Json.obj qdataB), ("student_answer", Json.str "")]), cfg0, fun _ => .ok fbOk⟩ =
      ⟨.resp 400 missingFieldsBody, []⟩ ∧
    evaluate_answer ⟨"r", .val (Json.obj [("question_data", Json.obj []), ("student_answer", Json.str "B")]), cfg0, fun _ => .ok fbOk⟩ =
      ⟨.resp 400 missingFieldsBody, []⟩ :=
  ⟨c10_falsy_fields_rejected _ _ rfl (Or.inr rfl),
   c10_falsy_fields_rejected _ _ rfl (Or.inl rfl)⟩

/-- C4 counterexample: the body `[1, 2]` is parseable JSON in which
`question_data` and `student_answer` are absent, yet the handler does not
return 400: `data.get` raises `AttributeError`, which nothing in the
route catches, and the dispatcher answers 500 (no model call is made). -/
theorem c4_counterexample :
    (evaluate_answer ⟨"[1, 2]", .val (Json.arr [Json.num 1, Json.num 2]), cfg0, fun _ => .ok fbOk⟩).outcome =
      .uncaught (.attributeError (attrNoGetMsg (Json.arr [Json.num 1, Json.num 2]))) ∧
    (evaluate_answer ⟨"[1, 2]", .val (Json.arr [Json.num 1, Json.num 2]), cfg0, fun _ => .ok fbOk⟩).outcome.status = 500 ∧
    ¬(evaluate_answer ⟨"[1, 2]", .val (Json.arr [Json.num 1, Json.num 2]), cfg0, fun _ => .ok fbOk⟩).outcome.status = 400 ∧
    (evaluate_answer ⟨"[1, 2]", .val (Json.arr [Json.num 1, Json.num 2]), cfg0, fun _ => .ok fbOk⟩).calls = [] :=
  ⟨rfl, rfl, by decide, rfl⟩

/-- C4 (amended): for every EvaluateAnswer request whose body parses to a
JSON object in which `question_data` or `student_answer` is absent, the
handler returns HTTP 400 and the model client is never invoked; a
parseable non-object body instead raises out of the handler. -/
theorem c4_missing_fields_amended (env : EvalEnv) (kvs : List (String × Json))
    (hb : env.body = .val (Json.obj kvs))
    (h : jlookup kvs "question_data" = none ∨ jlookup kvs "student_answer" = none) :
    (evaluate_answer env).outcome = .resp 400 missingFieldsBody ∧
    (evaluate_answer env).calls = [] := by
  have hres : evaluate_answer env = ⟨.resp 400 missingFieldsBody, []⟩ := by
    unfold evaluate_answer
    rw [hb]
    rcases h with h | h <;> simp [h, pyTruthyOpt]
  rw [hres]
  exact ⟨rfl, rfl⟩

/-- C4 witness: a JSON object body with neither field gets the 400 and an
empty call list. -/
theorem c4_amended_witness :
    (evaluate_answer ⟨"r", .val (Json.obj [("foo", Json.num 3)]), cfg0, fun _ => .ok fbOk⟩).outcome =
      .resp 400 missingFieldsBody ∧
    (evaluate_answer ⟨"r", .val (Json.obj [("foo", Json.num 3)]), cfg0, fun _ => .ok fbOk⟩).calls = [] :=
  c4_missing_fields_amended _ _ rfl (Or.inl rfl)

/-- C5 counterexample: `question_data` present and a dictionary lacking
all three required keys — the empty object — is falsy, so the handler
answers with the missing-fields 400 whose message does not name the
required keys (the key-naming message exists but is not reached). -/
theorem c5_counterexample :
    evaluate_answer ⟨"r", .val (Json.obj [("question_data", Json.obj []), ("student_answer", Json.str "C")]), cfg0, fun _ => .ok fbOk⟩ =
      ⟨.resp 400 missingFieldsBody, []⟩ ∧
    occurs "\x27explanation\x27" missingFieldsMsg = false ∧
    occurs "\x27answer\x27, \x27question\x27, \x27explanation\x27" invalidFormatMsg = true :=
  ⟨rfl, by decide, by decide⟩

/-- C5 (amended): when `question_data` is present and truthy but is not a
dictionary, or is a truthy dictionary lacking one of the keys `answer`,
`question`, `explanation` (with `student_answer` truthy), the handler
returns the invalid-format 400 whose message names the three required
keys, and no model call is made; a falsy `question_data` — for example
the empty object — instead receives the missing-fields 400, whose message
does not name them. -/
theorem c5_invalid_format_amended (env : EvalEnv) (kvs : List (String × Json)) (qdv sav : Json)
    (hb : env.body = .val (Json.obj kvs))
    (hqd : jlookup kvs "question_data" = some qdv)
    (hsa : jlookup kvs "student_answer" = some sav)
    (htq : pyTruthy qdv = true)
    (hts : pyTruthy sav = true)
    (h : (∀ qkvs, qdv ≠ Json.obj qkvs) ∨
         (∃ qkvs, qdv = Json.obj qkvs ∧
           ((jlookup qkvs "answer").isSome = false ∨
            (jlookup qkvs "question").isSome = false ∨
            (jlookup qkvs "explanation").isSome = false))) :
    evaluate_answer env = ⟨.resp 400 invalidFormatBody, []⟩ ∧
    occurs "\x27answer\x27, \x27question\x27, \x27explanation\x27" invalidFormatMsg = true := by
  refine ⟨?_, by decide⟩
  unfold evaluate_answer
  rw [hb]
  simp only [hqd, hsa, pyTruthyOpt, htq, hts, Bool.not_true, Bool.or_self, if_false,
    Option.getD_some, Bool.false_or, ite_false]
  rcases h with h | ⟨qkvs, rfl, h⟩
  · cases qdv with
    | obj qkvs => exact absurd rfl (h qkvs)
    | null => rfl
    | bool b => rfl
    | num n => rfl
    | str s => rfl
    | arr xs => rfl
  · rcases h with h | h | h <;> simp [h]

/-- C5 witness: a truthy `question_data` holding only `answer` gets the
invalid-format 400 naming the three required keys. -/
theorem c5_amended_witness :
    evaluate_answer ⟨"r", .val (Json.obj [("question_data", Json.obj [("answer", Json.str "B")]), ("student_answer", Json.str "C")]), cfg0, fun _ => .ok fbOk⟩ =
      ⟨.resp 400 invalidFormatBody, []⟩ ∧
    occurs "\x27answer\x27, \x27question\x27, \x27explanation\x27" invalidFormatMsg = true :=
  c5_invalid_format_amended _ _ (Json.obj [("answer", Json.str "B")]) (Json.str "C")
    rfl rfl rfl rfl rfl
    (Or.inr ⟨[("answer", Json.str "B")], rfl, Or.inr (Or.inl rfl)⟩)

/-- A representative `str(e)` text of the `BadRequest` Flask raises on
undecodable JSON (the exact wording is a werkzeug artefact). -/
def badReqText : String :=
  "400 Bad Request: The browser (or proxy) sent a request that this server could not understand."

/-- A representative `str(e)` text of the `UnsupportedMediaType` current
Flask raises on a wrong Content-Type. -/
def unsupportedMediaText : String :=
  "415 Unsupported Media Type: Did not attempt to load JSON data because the request Content-Type was not \x27application/json\x27."

/-- A representative `traceback.format_exc()` text. -/
def tbText : String := "Traceback (most recent call last):"

/-- C3 counterexample: an unparsable body sent to `/evaluate_answer` is
answered with HTTP 400, but the body is the caught-exception envelope
reporting `Failed to read request data` plus the traceback — it contains
no `received_raw_data` key and the raw received body occurs nowhere in
it; and on `/generate_question` the raised `BadRequest` escapes the
handler, so the framework page, not a handler body, answers.  No model
call is made on either route. -/
theorem c3_counterexample :
    evaluate_answer ⟨"NOT_JSON_BODY", .failed 400 badReqText tbText, cfg0, fun _ => .ok fbOk⟩ =
      ⟨.resp 400 (Json.obj [("error", Json.str ("Failed to read request data: " ++ badReqText)), ("traceback", Json.str tbText)]), []⟩ ∧
    jfield (Json.obj [("error", Json.str ("Failed to read request data: " ++ badReqText)), ("traceback", Json.str tbText)]) "received_raw_data" = none ∧
    occurs "NOT_JSON_BODY" ("Failed to read request data: " ++ badReqText) = false ∧
    occurs "NOT_JSON_BODY" tbText = false ∧
    (generate_question ⟨"NOT_JSON_BODY", .failed 400 badReqText tbText, some "Guide.", cfg0, fun _ => .ok fbOk⟩).outcome =
      .uncaught (.httpException 400 badReqText) ∧
    (generate_question ⟨"NOT_JSON_BODY", .failed 400 badReqText tbText, some "Guide.", cfg0, fun _ => .ok fbOk⟩).calls = [] :=
  ⟨rfl, rfl, by decide, by decide, rfl, rfl⟩

/-- C3 (amended): for every request whose JSON body cannot be parsed
(`request.json` raises a werkzeug `HTTPException`), `/evaluate_answer`
and `/test_llm` catch the exception and return HTTP 400 whose body
reports the read failure and the traceback but carries no
`received_raw_data` echo of the raw body; on `/generate_question` the
exception escapes the handler and the dispatcher renders it with the
exception's own status code (400 for undecodable JSON, 415 for a wrong
Content-Type).  In every case no model call is made. -/
theorem c3_malformed_body_amended (eenv : EvalEnv) (tenv : TestEnv) (genv : GenEnv)
    (ce ct cg : Nat) (ee et eg tbe tbt tbg : String)
    (he : eenv.body = .failed ce ee tbe)
    (ht : tenv.body = .failed ct et tbt)
    (hg : genv.body = .failed cg eg tbg) :
    evaluate_answer eenv =
      ⟨.resp 400 (Json.obj [("error", Json.str ("Failed to read request data: " ++ ee)), ("traceback", Json.str tbe)]), []⟩ ∧
    jfield (Json.obj [("error", Json.str ("Failed to read request data: " ++ ee)), ("traceback", Json.str tbe)]) "received_raw_data" = none ∧
    test_llm tenv =
      ⟨.resp 400 (Json.obj [("status", Json.str "error"), ("message", Json.str ("Failed to read request data for /test_llm: " ++ et)), ("traceback", Json.str tbt)]), []⟩ ∧
    jfield (Json.obj [("status", Json.str "error"), ("message", Json.str ("Failed to read request data for /test_llm: " ++ et)), ("traceback", Json.str tbt)]) "received_raw_data" = none ∧
    (generate_question genv).outcome = .uncaught (.httpException cg eg) ∧
    (generate_question genv).outcome.status = cg ∧
    (generate_question genv).calls = [] := by
  unfold evaluate_answer test_llm generate_question
  rw [he, ht, hg]
  exact ⟨rfl, rfl, rfl, rfl, rfl, rfl, rfl⟩

/-- C3 witness: the amended statement at concrete unparsable requests — a
400 `BadRequest` on the two echoing-free routes and a 415 wrong
Content-Type on `/generate_question`. -/
theorem c3_amended_witness :
    evaluate_answer ⟨"oops", .failed 400 badReqText tbText, cfg0, fun _ => .ok fbOk⟩ =
      ⟨.resp 400 (Json.obj [("error", Json.str ("Failed to read request data: " ++ badReqText)), ("traceback", Json.str tbText)]), []⟩ ∧
    jfield (Json.obj [("error", Json.str ("Failed to read request data: " ++ badReqText)), ("traceback", Json.str tbText)]) "received_raw_data" = none ∧
    test_llm ⟨"oops", .failed 400 badReqText tbText, cfg0, fun _ => .ok "hi"⟩ =
      ⟨.resp 400 (Json.obj [("status", Json.str "error"), ("message", Json.str ("Failed to read request data for /test_llm: " ++ badReqText)), ("traceback", Json.str tbText)]), []⟩ ∧
    jfield (Json.obj [("status", Json.str "error"), ("message", Json.str ("Failed to read request data for /test_llm: " ++ badReqText)), ("traceback", Json.str tbText)]) "received_raw_data" = none ∧
    (generate_question ⟨"oops", .failed 415 unsupportedMediaText tbText, some "Guide.", cfg0, fun _ => .ok fbOk⟩).outcome =
      .uncaught (.httpException 415 unsupportedMediaText) ∧
    (generate_question ⟨"oops", .failed 415 unsupportedMediaText tbText, some "Guide.", cfg0, fun _ => .ok fbOk⟩).outcome.status = 415 ∧
    (generate_question ⟨"oops", .failed 415 unsupportedMediaText tbText, some "Guide.", cfg0, fun _ => .ok fbOk⟩).calls = [] :=
  c3_malformed_body_amended ⟨"oops", .failed 400 badReqText tbText, cfg0, fun _ => .ok fbOk⟩
    ⟨"oops", .failed 400 badReqText tbText, cfg0, fun _ => .ok "hi"⟩
    ⟨"oops", .failed 415 unsupportedMediaText tbText, some "Guide.", cfg0, fun _ => .ok fbOk⟩
    400 400 415 badReqText badReqText unsupportedMediaText tbText tbText tbText rfl rfl rfl

/-- C6: the style guide is taken from the per-request environment on every
generation request — the handler is a pure function of the request's
file-system state, so nothing is cached across requests; when the file is
missing the handler returns HTTP 500 whose message says the style-guide
file was not found, without invoking the model client, and when present
that request's text is embedded verbatim into the system message sent. -/
theorem c6_style_guide_per_request (env : GenEnv) (kvs : List (String × Json))
    (hb : env.body = .val (Json.obj kvs)) :
    (env.styleGuide = none →
      generate_question env = ⟨.resp 500 (Json.obj [("error", Json.str styleGuideMissingMsg)]), []⟩ ∧
      occurs "gmat_style_guide.txt not found" styleGuideMissingMsg = true) ∧
    (∀ g, env.styleGuide = some g →
      (generate_question env).calls =
        [(env.cfg, genPrompt g ((jlookup kvs "topic").getD (Json.str "Algebra"))
            ((jlookup kvs "difficulty").getD (Json.str "Medium")))] ∧
      genSystemMsg g = genSysPre ++ g ++ genSysPost) := by
  constructor
  · intro hsg
    refine ⟨?_, by decide⟩
    unfold generate_question
    rw [hb, hsg]
  · intro g hsg
    refine ⟨?_, rfl⟩
    unfold generate_question
    rw [hb, hsg]
    dsimp only
    split <;> rfl

/-- C6 witness: concrete requests differing only in the style-guide state
get the 500 with no model call, respectively a prompt embedding that
request's guide. -/
theorem c6_witness :
    generate_question ⟨"\x7b\x7d", .val (Json.obj []), none, cfg0, fun _ => .ok fbOk⟩ =
      ⟨.resp 500 (Json.obj [("error", Json.str styleGuideMissingMsg)]), []⟩ ∧
    (generate_question ⟨"\x7b\x7d", .val (Json.obj []), some "Fresh guide.", cfg0, fun _ => .ok fbOk⟩).calls =
      [(cfg0, genPrompt "Fresh guide." (Json.str "Algebra") (Json.str "Medium"))] :=
  ⟨((c6_style_guide_per_request ⟨"\x7b\x7d", .val (Json.obj []), none, cfg0, fun _ => .ok fbOk⟩ [] rfl).1 rfl).1,
   ((c6_style_guide_per_request ⟨"\x7b\x7d", .val (Json.obj []), some "Fresh guide.", cfg0, fun _ => .ok fbOk⟩ [] rfl).2 "Fresh guide." rfl).1⟩

/-- The `/generate_question` handler either makes no model call or makes
exactly one, with its environment's configuration. -/
lemma generate_calls_shape (env : GenEnv) :
    (generate_question env).calls = [] ∨
    ∃ p, (generate_question env).calls = [(env.cfg, p)] := by
  unfold generate_question
  dsimp only
  repeat' split
  all_goals first
    | exact Or.inl rfl
    | exact Or.inr ⟨_, rfl⟩

/-- The `/evaluate_answer` handler either makes no model call or makes
exactly one, with its environment's configuration. -/
lemma evaluate_calls_shape (env : EvalEnv) :
    (evaluate_answer env).calls = [] ∨
    ∃ p, (evaluate_answer env).calls = [(env.cfg, p)] := by
  unfold evaluate_answer
  dsimp only
  repeat' split
  all_goals first
    | exact Or.inl rfl
    | exact Or.inr ⟨_, rfl⟩

/-- The `/test_llm` handler either makes no model call or makes exactly
one, with its environment's configuration. -/
lemma test_calls_shape (env : TestEnv) :
    (test_llm env).calls = [] ∨
    ∃ p, (test_llm env).calls = [(env.cfg, p)] := by
  unfold test_llm
  dsimp only
  repeat' split
  all_goals first
    | exact Or.inl rfl
    | exact Or.inr ⟨_, rfl⟩

/-- Every model call `/generate_question` records uses the environment's
configuration. -/
lemma generate_calls_cfg (env : GenEnv) :
    ∀ c ∈ (generate_question env).calls, c.1 = env.cfg := by
  intro c hc
  rcases generate_calls_shape env with h | ⟨p, h⟩ <;> rw [h] at hc <;> simp_all

/-- Every model call `/evaluate_answer` records uses the environment's
configuration. -/
lemma evaluate_calls_cfg (env : EvalEnv) :
    ∀ c ∈ (evaluate_answer env).calls, c.1 = env.cfg := by
  intro c hc
  rcases evaluate_calls_shape env with h | ⟨p, h⟩ <;> rw [h] at hc <;> simp_all

/-- Every model call `/test_llm` records uses the environment's
configuration. -/
lemma test_calls_cfg (env : TestEnv) :
    ∀ c ∈ (test_llm env).calls, c.1 = env.cfg := by
  intro c hc
  rcases test_calls_shape env with h | ⟨p, h⟩ <;> rw [h] at hc <;> simp_all

/-- C7: with the required API key falsy in the startup environment —
unset, or set to the empty string, which the guard
`if openrouter_api_key:` treats identically — the process exits with
code 1 before serving any request; with a non-empty key present, startup
yields the configuration determined once by that environment, and every
model call any of the three handlers makes on any request carries its
environment's single configuration unchanged. -/
theorem c7_startup_fatal_and_config (senv : StartupEnv) :
    (pyEnvTruthy senv.apiKey = false → startup senv = .exited 1) ∧
    (∀ k, senv.apiKey = some k → k ≠ "" →
      startup senv = .serving ⟨senv.modelNameEnv.getD defaultModelName, k, openrouterBaseUrl⟩) ∧
    (∀ genv : GenEnv, ∀ c ∈ (generate_question genv).calls, c.1 = genv.cfg) ∧
    (∀ eenv : EvalEnv, ∀ c ∈ (evaluate_answer eenv).calls, c.1 = eenv.cfg) ∧
    (∀ tenv : TestEnv, ∀ c ∈ (test_llm tenv).calls, c.1 = tenv.cfg) := by
  refine ⟨?_, ?_, generate_calls_cfg, evaluate_calls_cfg, test_calls_cfg⟩
  · intro h
    unfold startup
    dsimp only
    rcases hk : senv.apiKey with _ | k
    · rfl
    · rw [hk] at h
      simp only [pyEnvTruthy, bne_eq_false_iff_eq] at h
      subst h
      rfl
  · intro k hk hne
    unfold startup
    dsimp only
    rw [hk]
    dsimp only
    rw [if_neg hne]

/-- C7 witness: startup at concrete environments — variable unset,
variable set to the empty string, and a non-empty key. -/
theorem c7_witness :
    startup ⟨none, some "other-model"⟩ = .exited 1 ∧
    startup ⟨some "", none⟩ = .exited 1 ∧
    startup ⟨some "sk-abc", none⟩ = .serving ⟨defaultModelName, "sk-abc", openrouterBaseUrl⟩ :=
  ⟨(c7_startup_fatal_and_config ⟨none, some "other-model"⟩).1 rfl,
   (c7_startup_fatal_and_config ⟨some "", none⟩).1 rfl,
   (c7_startup_fatal_and_config ⟨some "sk-abc", none⟩).2.1 "sk-abc" rfl (by decide)⟩

/-- C9: for every TestCompletion request whose parsed JSON body is an
object with no `prompt` field, the single model call carries exactly one
message — a human message whose content is the literal
`Say 'Hello, AI is working!'` — and no system message. -/
theorem c9_default_test_prompt (env : TestEnv) (kvs : List (String × Json))
    (hb : env.body = .val (Json.obj kvs))
    (hp : jlookup kvs "prompt" = none) :
    (test_llm env).calls = [(env.cfg, [⟨"human", defaultTestPrompt⟩])] ∧
    defaultTestPrompt = "Say \x27Hello, AI is working!\x27" ∧
    (∀ c ∈ (test_llm env).calls, ∀ m ∈ c.2, m.role = "human") := by
  have hcalls : (test_llm env).calls = [(env.cfg, [⟨"human", defaultTestPrompt⟩])] := by
    unfold test_llm
    rw [hb]
    dsimp only
    simp only [hp]
    split <;> rfl
  refine ⟨hcalls, rfl, ?_⟩
  intro c hc m hm
  rw [hcalls] at hc
  simp only [List.mem_singleton] at hc
  subst hc
  simp only [List.mem_singleton] at hm
  subst hm
  rfl

/-- C9 witness: the concrete body with no `prompt` field yields exactly
the literal default human message. -/
theorem c9_witness :
    (test_llm ⟨"\x7b\x7d", .val (Json.obj [("x", Json.num 1)]), cfg0, fun _ => .ok "pong"⟩).calls =
      [(cfg0, [⟨"human", defaultTestPrompt⟩])] ∧
    defaultTestPrompt = "Say \x27Hello, AI is working!\x27" :=
  ⟨(c9_default_test_prompt ⟨"\x7b\x7d", .val (Json.obj [("x", Json.num 1)]), cfg0, fun _ => .ok "pong"⟩
      [("x", Json.num 1)] rfl rfl).1,
   (c9_default_test_prompt ⟨"\x7b\x7d", .val (Json.obj [("x", Json.num 1)]), cfg0, fun _ => .ok "pong"⟩
      [("x", Json.num 1)] rfl rfl).2.1⟩

/-- Well-formedness of a GeneratedQuestion record as the specification
states it (a claim-side predicate, for comparison with what the code
returns): string `question`, exactly 5 string `options`, non-empty string
`answer` and `explanation`. -/
def claimQuestionSchema (j : Json) : Bool :=
  match jfield j "question", jfield j "options", jfield j "answer", jfield j "explanation" with
  | some (Json.str _), some (Json.arr opts), some (Json.str a), some (Json.str e) =>
    (opts.length == 5) &&
    opts.all (fun o => match o with | Json.str _ => true | _ => false) &&
    (a != "") && (e != "")
  | _, _, _, _ => false

/-- A chain output with only three options: well-typed field-wise, but
failing the 5-option requirement. -/
def badQuestionRecord : Json :=
  Json.obj
    [("question", Json.str "What is 2+2?"),
     ("options", Json.arr [Json.str "A) 3", Json.str "B) 4", Json.str "C) 5"]),
     ("answer", Json.str "B"),
     ("explanation", Json.str "2+2 = 4.")]

/-- A valid generation request whose stubbed chain yields
`badQuestionRecord`. -/
def genC1env : GenEnv :=
  ⟨"\x7b\x7d", .val (Json.obj []), some "Style guide text.", cfg0, fun _ => .ok badQuestionRecord⟩

/-- C1 counterexample: on a valid request, when the model chain yields a
record with only 3 options, the handler returns HTTP 200 with that
malformed record — neither the option count nor the schema is checked
before `jsonify` (the chain's output parser only parses JSON). -/
theorem c1_counterexample :
    (generate_question genC1env).outcome = .resp 200 badQuestionRecord ∧
    claimQuestionSchema badQuestionRecord = false ∧
    jfield badQuestionRecord "options" =
      some (Json.arr [Json.str "A) 3", Json.str "B) 4", Json.str "C) 5"]) :=
  ⟨rfl, by decide, rfl⟩

/-- C1 (amended): for every request whose body parses to a JSON object,
the handler either returns HTTP 200 whose body is exactly the JSON value
the model chain produced — with no validation, so the record may miss
fields or have an option count other than 5 — or returns HTTP 500 with an
error body (missing style guide, upstream failure, or unparsable
completion). -/
theorem c1_no_validation_amended (env : GenEnv) (kvs : List (String × Json))
    (hb : env.body = .val (Json.obj kvs)) :
    (∃ p j, env.llm p = .ok j ∧ (generate_question env).outcome = .resp 200 j ∧
      (generate_question env).calls = [(env.cfg, p)]) ∨
    (∃ b, (generate_question env).outcome = .resp 500 b) := by
  unfold generate_question
  rw [hb]
  dsimp only
  rcases hsg : env.styleGuide with _ | g
  · exact Or.inr ⟨_, rfl⟩
  · dsimp only
    rcases hl : env.llm (genPrompt g ((jlookup kvs "topic").getD (Json.str "Algebra"))
        ((jlookup kvs "difficulty").getD (Json.str "Medium"))) with e | j
    · simp only [hl]
      exact Or.inr ⟨_, rfl⟩
    · simp only [hl]
      exact Or.inl ⟨_, j, hl, rfl, rfl⟩

/-- C1 witness: the amended dichotomy at the concrete stubbed request. -/
theorem c1_amended_witness :
    (∃ p j, genC1env.llm p = .ok j ∧ (generate_question genC1env).outcome = .resp 200 j ∧
      (generate_question genC1env).calls = [(genC1env.cfg, p)]) ∨
    (∃ b, (generate_question genC1env).outcome = .resp 500 b) :=
  c1_no_validation_amended genC1env [] rfl

/-- A feedback record in which the model contradicts the locally computed
correctness. -/
def fbLie : Json :=
  Json.obj [("is_correct", Json.bool false), ("feedback", Json.str "Sadly wrong."), ("remediation_topic", Json.str "Algebra")]

/-- An evaluation request whose student answer matches the stored answer,
with a stubbed chain that returns `fbLie`. -/
def evLieEnv : EvalEnv :=
  ⟨"r", .val (qdBody "b"), cfg0, fun _ => .ok fbLie⟩

/-- C8 counterexample: the student answer `b` matches the stored answer
`B`, the prompt carries `Is correct: True`, yet the 200 response body is
the model's record verbatim, whose `is_correct` field is `false` — the
returned FeedbackResult's correctness is the model's opinion, not the
locally computed boolean. -/
theorem c8_counterexample :
    (normAnswer (Json.str "b") == normAnswer (Json.str "B")) = true ∧
    occurs "Is correct: True" (firstHumanText (evaluate_answer evLieEnv)) = true ∧
    (evaluate_answer evLieEnv).outcome = .resp 200 fbLie ∧
    jfield fbLie "is_correct" = some (Json.bool false) ∧
    Json.bool false ≠ Json.bool true :=
  ⟨by decide, by decide, rfl, rfl, by simp⟩

/-- C8 (amended): for every EvaluateAnswer request that reaches the model
call, the human message interpolates the stored question text, the
student answer, the normalised correct answer, the locally computed
correctness boolean, and the stored explanation; the `is_correct` placed
in the prompt is that local boolean, but the returned body is the model
chain's parsed output verbatim, so the `is_correct` field of the returned
FeedbackResult is whatever the model emitted. -/
theorem c8_prompt_local_response_model (env : EvalEnv) (kvs qkvs : List (String × Json)) (sav : Json)
    (hb : env.body = .val (Json.obj kvs))
    (hqd : jlookup kvs "question_data" = some (Json.obj qkvs))
    (hsa : jlookup kvs "student_answer" = some sav)
    (htq : pyTruthy (Json.obj qkvs) = true)
    (hts : pyTruthy sav = true)
    (ha : (jlookup qkvs "answer").isSome = true)
    (hq : (jlookup qkvs "question").isSome = true)
    (he : (jlookup qkvs "explanation").isSome = true) :
    (evaluate_answer env).calls =
      [(env.cfg,
        [⟨"system", feedbackSystemMsg⟩,
         ⟨"human",
          feedbackHumanMsg ((jlookup qkvs "question").getD Json.null) sav
            (normAnswer ((jlookup qkvs "answer").getD Json.null))
            (normAnswer sav == normAnswer ((jlookup qkvs "answer").getD Json.null))
            ((jlookup qkvs "explanation").getD Json.null)⟩])] ∧
    (∀ j, env.llm (feedbackPrompt ((jlookup qkvs "question").getD Json.null) sav
        (normAnswer ((jlookup qkvs "answer").getD Json.null))
        (normAnswer sav == normAnswer ((jlookup qkvs "answer").getD Json.null))
        ((jlookup qkvs "explanation").getD Json.null)) = .ok j →
      (evaluate_answer env).outcome = .resp 200 j) := by
  have hrun := eval_valid_run env kvs qkvs sav hb hqd hsa htq hts ha hq he
  dsimp only at hrun
  constructor
  · rw [hrun]
    split <;> rfl
  · intro j hj
    rw [hrun, hj]

/-- C8 witness: the amended statement at the concrete stubbed request. -/
theorem c8_amended_witness :
    (evaluate_answer evLieEnv).calls =
      [(cfg0,
        [⟨"system", feedbackSystemMsg⟩,
         ⟨"human", feedbackHumanMsg (Json.str "What is 1+1?") (Json.str "b") "b" true (Json.str "Because.")⟩])] ∧
    (evaluate_answer evLieEnv).outcome = .resp 200 fbLie :=
  ⟨(c8_prompt_local_response_model evLieEnv
      [("question_data", Json.obj qdataB), ("student_answer", Json.str "b")] qdataB
      (Json.str "b") rfl rfl rfl rfl rfl rfl rfl rfl).1,
   (c8_prompt_local_response_model evLieEnv
      [("question_data", Json.obj qdataB), ("student_answer", Json.str "b")] qdataB
      (Json.str "b") rfl rfl rfl rfl rfl rfl rfl rfl).2 fbLie rfl⟩
